import Mathlib

/-!
Verification of the risk scoring engine of the iSafe backend
(`backend/risk_engine.py` together with the factor-extraction part of
`backend/gemini_client.py`).

Modelling conventions:
* Python floats are modelled as exact rationals (`ℚ`); Python's built-in
  banker's rounding `round(x)` / `round(x, 2)` is modelled by `pythonRound`
  and `round2` below.
* Python dicts with a fixed key set are modelled as structures; the weight
  and threshold dicts are association lists looked up with `List.lookup`
  (dict keys are distinct string literals, so lookup order is irrelevant).
* The Gemini augmentation round trip (`gemini_client.is_available`,
  `analyze_media_risk`) is effectful; its outcome is passed to the engine as
  an explicit `AugOutcome` value: `unavailable` models `is_available()`
  returning `False`, `failed` models an exception raised by the awaited call
  (caught by the `except` block), `noResponse` models `analyze_media_risk`
  returning `None` (timeout / malformed reply inside `generate`), and
  `ok analysis` models a successful reply whose raw text is `analysis`.
* Python strings are Lean `String`s; `str.split('\n')`, `str.strip()`,
  `str.lstrip(chars)` are implemented structurally on the character list.
-/

namespace ISafe

/-- Python `round(q)` (round-half-to-even, "banker's rounding") on exact
rationals, returning an integer. -/
def pythonRound (q : ℚ) : ℤ :=
  if q - ⌊q⌋ < 1/2 then ⌊q⌋
  else if 1/2 < q - ⌊q⌋ then ⌊q⌋ + 1
  else if ⌊q⌋ % 2 = 0 then ⌊q⌋ else ⌊q⌋ + 1

/-- Python `round(q, 2)`: round to two decimal places, half to even. -/
def round2 (q : ℚ) : ℚ :=
  (pythonRound (q * 100) : ℚ) / 100

/-- Python `s.split(c)` on the character list: splits at every occurrence of
`c`, keeping empty pieces (so the result is always non-empty). -/
def splitListOn (c : Char) : List Char → List (List Char)
  | [] => [[]]
  | x :: xs =>
    if x = c then [] :: splitListOn c xs
    else
      match splitListOn c xs with
      | [] => [[x]]
      | h :: t => (x :: h) :: t

/-- Python `s.strip()`: drop whitespace from both ends. -/
def stripChars (cs : List Char) : List Char :=
  ((cs.dropWhile Char.isWhitespace).reverse.dropWhile Char.isWhitespace).reverse

/-- Character set of the `lstrip('0123456789.-*• ')` call in
`GeminiClient._extract_risk_factors`. -/
def bulletStripChars : List Char := "0123456789.-*• ".data

/-- Guard of `GeminiClient._extract_risk_factors`: the (stripped) line is
non-empty and `line[0].isdigit() or line.startswith(('-','*','•'))`. -/
def isBulletL : List Char → Bool
  | [] => false
  | c :: _ => c.isDigit || c == '-' || c == '*' || c == '•'

/-- Cleaning step of `_extract_risk_factors`:
`line.lstrip('0123456789.-*• ').strip()`. -/
def cleanBullet (l : List Char) : List Char :=
  stripChars (l.dropWhile (fun c => bulletStripChars.contains c))

/-- Loop body of `GeminiClient._extract_risk_factors`: strip each line, keep
the cleaned content of numbered/bulleted lines whose cleaned length
exceeds 10. -/
def extractLoop : List (List Char) → List (List Char)
  | [] => []
  | raw :: rest =>
    if isBulletL (stripChars raw) then
      if (cleanBullet (stripChars raw)).length > 10 then
        cleanBullet (stripChars raw) :: extractLoop rest
      else extractLoop rest
    else extractLoop rest

/-- `GeminiClient._extract_risk_factors`: parse risk-factor strings out of the
free-text Gemini response; at most 4 are returned. -/
def extractRiskFactors (resp : String) : List String :=
  ((extractLoop (splitListOn '\n' resp.data)).map String.mk).take 4

/-- Scalar values appearing in `evidence` dicts. -/
inductive EvValue where
  | str (s : String)
  | int (n : ℤ)
deriving DecidableEq

/-- A detector signal: `{'type': ..., 'confidence': ..., 'description': ...,
'evidence': ...}`. -/
structure Signal where
  type : String
  confidence : ℚ
  description : String
  evidence : List (String × EvValue)
deriving DecidableEq

/-- One entry of `signal_breakdown` as built in
`RiskScoringEngine.calculate_risk`. -/
structure Contribution where
  signal : String
  description : String
  confidence : ℚ
  weight : ℚ
  contribution : ℚ
  evidence : List (String × EvValue)
deriving DecidableEq

/-- A recommendation record as produced by
`RiskScoringEngine._generate_recommendation` /
`_generate_low_risk_response`. -/
structure Recommendation where
  action : String
  priority : String
  suggested_steps : List String
  human_review_required : Bool
deriving DecidableEq

/-- Optional request metadata (`metadata.get('timestamp')`,
`metadata.get('source')`, `metadata.get('context')`). -/
structure Metadata where
  timestamp : Option String
  source : Option String
  context : Option String
deriving DecidableEq

/-- Outcome of the Gemini augmentation round trip, passed to the engine as an
explicit value (see the module docstring). -/
inductive AugOutcome where
  | unavailable
  | failed
  | noResponse
  | ok (analysis : String)
deriving DecidableEq

/-- The assessment dict returned by `RiskScoringEngine.calculate_risk`.
The `gemini_analysis` / `gemini_verified` keys are absent from the
`_generate_low_risk_response` dict; an absent key is modelled as
`none` / `false`. -/
structure RiskAssessment where
  risk_score : ℤ
  risk_level : String
  modality : String
  signals_detected : ℕ
  signal_breakdown : List Contribution
  explanation : String
  recommendation : Recommendation
  gemini_analysis : Option String
  gemini_verified : Bool
  disclaimer : String
  timestamp : Option String
  source : Option String
deriving DecidableEq

/-- `RiskScoringEngine.WEIGHTS`: signal weights by modality. -/
def WEIGHTS : List (String × List (String × ℚ)) :=
  [("image",
     [("manipulation_artifacts", 35/100),
      ("metadata_inconsistency", 20/100),
      ("compression_anomaly", 15/100),
      ("lighting_inconsistency", 15/100),
      ("noise_pattern", 15/100)]),
   ("video",
     [("facial_warping", 30/100),
      ("lighting_shadow_anomaly", 20/100),
      ("temporal_inconsistency", 20/100),
      ("audio_visual_mismatch", 15/100),
      ("compression_artifact", 15/100)]),
   ("audio",
     [("spectral_anomaly", 30/100),
      ("phoneme_inconsistency", 25/100),
      ("voice_synthesis_artifact", 25/100),
      ("background_mismatch", 20/100)]),
   ("text",
     [("sensational_language", 25/100),
      ("stylometric_drift", 20/100),
      ("emotional_manipulation", 20/100),
      ("factual_inconsistency", 20/100),
      ("source_credibility", 15/100)])]

/-- `RiskScoringEngine.THRESHOLDS`. -/
def THRESHOLDS : List (String × ℤ) :=
  [("low", 30), ("medium", 60), ("high", 100)]

/-- `self.WEIGHTS.get(modality, {})`. -/
def weightsFor (modality : String) : List (String × ℚ) :=
  (List.lookup modality WEIGHTS).getD []

/-- `weights.get(signal_type, 0.1)`. -/
def lookupWeight (ws : List (String × ℚ)) (t : String) : ℚ :=
  (List.lookup t ws).getD (1/10)

/-- The unrounded `contribution = confidence * weight * 100` of one signal. -/
def rawContribution (ws : List (String × ℚ)) (s : Signal) : ℚ :=
  s.confidence * lookupWeight ws s.type * 100

/-- The breakdown entry appended for one signal in the scoring loop of
`calculate_risk` (confidence and contribution stored rounded to 2 places). -/
def mkContribution (ws : List (String × ℚ)) (s : Signal) : Contribution :=
  { signal := s.type
    description := s.description
    confidence := round2 s.confidence
    weight := lookupWeight ws s.type
    contribution := round2 (rawContribution ws s)
    evidence := s.evidence }

/-- All detector-sourced breakdown entries, in detection order. -/
def detectorContribs (modality : String) (signals : List Signal) :
    List Contribution :=
  signals.map (mkContribution (weightsFor modality))

/-- The unrounded `total_score` accumulated over the detector signals. -/
def baseTotal (modality : String) (signals : List Signal) : ℚ :=
  (signals.map (rawContribution (weightsFor modality))).sum

/-- The pre-augmentation `risk_score = min(100, round(total_score))`. -/
def preAugScore (modality : String) (signals : List Signal) : ℤ :=
  min 100 (pythonRound (baseTotal modality signals))

/-- `RiskScoringEngine._determine_risk_level`. -/
def determineRiskLevel (score : ℤ) : String :=
  if score < (List.lookup "low" THRESHOLDS).getD 0 then "Low"
  else if score < (List.lookup "medium" THRESHOLDS).getD 0 then "Medium"
  else "High"

/-- The pre-augmentation risk level. -/
def preAugLevel (modality : String) (signals : List Signal) : String :=
  determineRiskLevel (preAugScore modality signals)

/-- One synthetic contribution built from the `i`-th (0-based) accepted Gemini
risk factor (`calculate_risk`, gemini branch). -/
def mkGeminiContribution (i : ℕ) (factor : String) : Contribution :=
  { signal := "ai_verified_risk_factor"
    description := factor
    confidence := 70/100
    weight := 15/100
    contribution := 105/10
    evidence := [("source", EvValue.str "Gemini AI"),
                 ("factor_id", EvValue.int ((i : ℤ) + 1))] }

/-- `for i, factor in enumerate(additional_factors[:3])` loop body. -/
def geminiSignalsAux : ℕ → List String → List Contribution
  | _, [] => []
  | i, f :: fs => mkGeminiContribution i f :: geminiSignalsAux (i + 1) fs

/-- The synthetic contributions built from a successful Gemini analysis:
`additional_context` (at most 4 extracted factors) truncated to 3. -/
def geminiSignals (analysis : String) : List Contribution :=
  geminiSignalsAux 0 ((extractRiskFactors analysis).take 3)

/-- The `gemini_signals` list for a given augmentation outcome (empty unless
the round trip succeeded). -/
def geminiPart : AugOutcome → List Contribution
  | AugOutcome.ok a => geminiSignals a
  | _ => []

/-- The raw analysis text stored under `gemini_analysis` in the result. -/
def augAnalysis : AugOutcome → Option String
  | AugOutcome.ok a => some a
  | _ => none

/-- Number of accepted Gemini risk factors for a given outcome. -/
def geminiCount : AugOutcome → ℕ
  | AugOutcome.ok a => ((extractRiskFactors a).take 3).length
  | _ => 0

/-- Python `str.title()` restricted to alphabetic word characters: the first
letter of every maximal alphabetic run is uppercased, the rest lowercased. -/
def titleAux : Bool → List Char → List Char
  | _, [] => []
  | prevAlpha, c :: cs =>
    if c.isAlpha then
      (if prevAlpha then c.toLower else c.toUpper) :: titleAux true cs
    else c :: titleAux false cs

/-- `sig['signal'].replace('_', ' ').title()`. -/
def humanizeSignal (s : String) : String :=
  String.mk (titleAux false (s.data.map (fun c => if c = '_' then ' ' else c)))

/-- Python `f"{q:.0%}"`: percentage with no decimals, half to even. -/
def formatPercent (q : ℚ) : String :=
  (if q < 0 then "-" else "") ++ toString (pythonRound (q * 100)).natAbs ++ "%"

/-- Python `f"{q:.1f}"`: fixed-point with one decimal, half to even. -/
def formatFixed1 (q : ℚ) : String :=
  (if q < 0 then "-" else "")
    ++ toString ((pythonRound (q * 10)).natAbs / 10) ++ "."
    ++ toString ((pythonRound (q * 10)).natAbs % 10)

/-- Insertion step of the stable descending sort modelling
`sorted(contributions, key=lambda x: x['contribution'], reverse=True)`:
`x` passes over strictly larger contributions and lands in front of the
first entry whose contribution is `≤` its own, so equal keys keep their
original relative order. -/
def insertDesc (x : Contribution) : List Contribution → List Contribution
  | [] => [x]
  | y :: ys =>
    if x.contribution < y.contribution then y :: insertDesc x ys
    else x :: y :: ys

/-- Stable descending sort by `contribution` (Python's `sorted` with
`reverse=True` is stable: ties keep detection order). -/
def pySortDesc : List Contribution → List Contribution
  | [] => []
  | x :: xs => insertDesc x (pySortDesc xs)

/-- One numbered line of the explanation (loop body of
`_generate_explanation`). -/
def renderTopSignal (i : ℕ) (c : Contribution) : String :=
  "\n" ++ toString i ++ ". " ++ humanizeSignal c.signal ++ ": "
    ++ c.description ++ " (Confidence: " ++ formatPercent c.confidence
    ++ ", Contribution: " ++ formatFixed1 c.contribution ++ " points)"

/-- `for i, sig in enumerate(top_signals, 1)` rendering loop. -/
def renderTopSignals : ℕ → List Contribution → String
  | _, [] => ""
  | i, c :: cs => renderTopSignal i c ++ renderTopSignals (i + 1) cs

/-- `RiskScoringEngine._generate_explanation`. -/
def genExplanation (modality : String) (contributions : List Contribution)
    (score : ℤ) : String :=
  if contributions.isEmpty then
    "No significant risk signals detected in this " ++ modality ++ "."
  else
    "Risk score of " ++ toString score ++ "/100 calculated from "
      ++ toString contributions.length ++ " detected signals."
      ++ "\nTop contributing factors:"
      ++ renderTopSignals 1 ((pySortDesc contributions).take 3)

/-- `RiskScoringEngine._generate_recommendation`. The Python dict is indexed
with `risk_level`, which `_determine_risk_level` guarantees to be one of
"Low"/"Medium"/"High"; the final `else` branch is the "High" entry. -/
def genRecommendation (risk_level modality : String) : Recommendation :=
  if risk_level = "Low" then
    { action := "Proceed with Caution"
      priority := "Low"
      suggested_steps :=
        ["Content appears to have minimal risk indicators",
         "Standard verification practices apply",
         "Monitor for context changes if sharing publicly"]
      human_review_required := false }
  else if risk_level = "Medium" then
    { action := "Human Verification Advised"
      priority := "Medium"
      suggested_steps :=
        ["Manual review recommended before publication",
         "Verify source credibility independently",
         "Cross-check " ++ modality ++ " content with alternative sources",
         "Consider consulting domain experts"]
      human_review_required := true }
  else
    { action := "Escalation Recommended"
      priority := "High"
      suggested_steps :=
        ["⚠️ Multiple risk signals detected - immediate human review required",
         "Do not publish or share without thorough verification",
         "Consult fact-checking organizations",
         "Conduct forensic analysis if appropriate",
         "Document all verification steps"]
      human_review_required := true }

/-- `RiskScoringEngine._generate_low_risk_response`. -/
def lowRiskResponse (modality : String) : RiskAssessment :=
  { risk_score := 0
    risk_level := "Low"
    modality := modality
    signals_detected := 0
    signal_breakdown := []
    explanation :=
      "No significant deception risk signals detected in this " ++ modality
        ++ ". However, absence of detected signals does not guarantee authenticity."
    recommendation :=
      { action := "Proceed with Standard Verification"
        priority := "Low"
        suggested_steps :=
          ["No automated risk indicators found",
           "Apply standard content verification practices",
           "Note: Advanced manipulations may evade detection"]
        human_review_required := false }
    gemini_analysis := none
    gemini_verified := false
    disclaimer :=
      "This system cannot detect all forms of manipulation. Human judgment remains essential."
    timestamp := none
    source := none }

/-- `RiskScoringEngine.calculate_risk`, with the augmentation round trip
abstracted into the `aug` parameter. -/
def calcRisk (modality : String) (signals : List Signal)
    (metadata : Option Metadata) (aug : AugOutcome) : RiskAssessment :=
  if signals.isEmpty then
    lowRiskResponse modality
  else
    let contribs := detectorContribs modality signals
    let total0 := baseTotal modality signals
    let score0 := min 100 (pythonRound total0)
    let level0 := determineRiskLevel score0
    let gsigs := geminiPart aug
    let total := total0 + (gsigs.map Contribution.contribution).sum
    { risk_score := if gsigs.isEmpty then score0 else min 100 (pythonRound total)
      risk_level :=
        if gsigs.isEmpty then level0
        else determineRiskLevel (min 100 (pythonRound total))
      modality := modality
      signals_detected := signals.length + gsigs.length
      signal_breakdown := contribs ++ gsigs
      explanation := genExplanation modality contribs score0
      recommendation := genRecommendation level0 modality
      gemini_analysis := augAnalysis aug
      gemini_verified := (augAnalysis aug).isSome
      disclaimer :=
        "This is a probabilistic risk assessment. Human verification is essential for decision-making."
      timestamp := metadata.bind Metadata.timestamp
      source := metadata.bind Metadata.source }

/-! ### Helper lemmas about the rounding function -/

theorem floor_le_pythonRound (q : ℚ) : ⌊q⌋ ≤ pythonRound q := by
  unfold pythonRound
  split_ifs <;> omega

theorem pythonRound_le_floor_add_one (q : ℚ) : pythonRound q ≤ ⌊q⌋ + 1 := by
  unfold pythonRound
  split_ifs <;> omega

theorem pythonRound_mono {a b : ℚ} (h : a ≤ b) : pythonRound a ≤ pythonRound b := by
  rcases lt_or_eq_of_le (Int.floor_le_floor h) with hf | hf
  · calc pythonRound a ≤ ⌊a⌋ + 1 := pythonRound_le_floor_add_one a
      _ ≤ ⌊b⌋ := by omega
      _ ≤ pythonRound b := floor_le_pythonRound b
  · unfold pythonRound
    rw [← hf]
    split_ifs <;> first | omega | linarith

theorem pythonRound_nonneg {q : ℚ} (h : 0 ≤ q) : 0 ≤ pythonRound q :=
  le_trans (Int.floor_nonneg.mpr h) (floor_le_pythonRound q)

/-- Evaluation helper: a rational strictly below the halfway point rounds
down. -/
theorem pythonRound_eq_low {q : ℚ} {z : ℤ} (hz : ⌊q⌋ = z) (h : q - z < 1/2) :
    pythonRound q = z := by
  unfold pythonRound
  rw [hz, if_pos h]

/-- Evaluation helper: a rational strictly above the halfway point rounds
up. -/
theorem pythonRound_eq_high {q : ℚ} {z : ℤ} (hz : ⌊q⌋ = z) (h : 1/2 < q - z) :
    pythonRound q = z + 1 := by
  unfold pythonRound
  rw [hz, if_neg (by linarith), if_pos h]

/-- Evaluation helper: exactly halfway with an even floor rounds down. -/
theorem pythonRound_eq_half_even {q : ℚ} {z : ℤ} (hz : ⌊q⌋ = z)
    (h : q - z = 1/2) (he : z % 2 = 0) : pythonRound q = z := by
  unfold pythonRound
  rw [hz, if_neg (by linarith), if_neg (by linarith), if_pos he]

/-! ### Helper lemmas about the synthetic Gemini contributions -/

theorem geminiSignalsAux_length (fs : List String) (k : ℕ) :
    (geminiSignalsAux k fs).length = fs.length := by
  induction fs generalizing k with
  | nil => rfl
  | cons f fs ih => simp [geminiSignalsAux, ih]

theorem geminiSignalsAux_sum (fs : List String) (k : ℕ) :
    ((geminiSignalsAux k fs).map Contribution.contribution).sum
      = (105/10 : ℚ) * fs.length := by
  induction fs generalizing k with
  | nil => simp [geminiSignalsAux]
  | cons f fs ih =>
    simp [geminiSignalsAux, mkGeminiContribution, ih]
    ring

theorem geminiSignals_length (a : String) :
    (geminiSignals a).length = ((extractRiskFactors a).take 3).length :=
  geminiSignalsAux_length _ 0

theorem geminiSignals_sum (a : String) :
    ((geminiSignals a).map Contribution.contribution).sum
      = (105/10 : ℚ) * ((extractRiskFactors a).take 3).length :=
  geminiSignalsAux_sum _ 0

theorem geminiSignalsAux_get (fs : List String) (k i : ℕ)
    (h : i < (geminiSignalsAux k fs).length) :
    (geminiSignalsAux k fs).get ⟨i, h⟩
      = mkGeminiContribution (k + i)
          (fs.get ⟨i, by rw [← geminiSignalsAux_length fs k]; exact h⟩) := by
  induction fs generalizing k i with
  | nil => simp [geminiSignalsAux] at h
  | cons f fs ih =>
    cases i with
    | zero => rfl
    | succ j =>
      have hj : j < (geminiSignalsAux (k + 1) fs).length := by
        simpa [geminiSignalsAux] using h
      have := ih (k + 1) j hj
      simp only [geminiSignalsAux, List.get_cons_succ, this]
      congr 1
      omega

/-! ### Provenance of extracted risk factors -/

theorem extractLoop_mem {f : List Char} {ls : List (List Char)}
    (h : f ∈ extractLoop ls) :
    ∃ l ∈ ls, isBulletL (stripChars l) = true
      ∧ f = cleanBullet (stripChars l) ∧ f.length > 10 := by
  induction ls with
  | nil => simp [extractLoop] at h
  | cons r rest ih =>
    rw [extractLoop] at h
    split_ifs at h with hb hlen
    · rcases List.mem_cons.mp h with rfl | hmem
      · exact ⟨r, by simp, hb, rfl, hlen⟩
      · obtain ⟨l, hl, p1, p2, p3⟩ := ih hmem
        exact ⟨l, by simp [hl], p1, p2, p3⟩
    · obtain ⟨l, hl, p1, p2, p3⟩ := ih h
      exact ⟨l, by simp [hl], p1, p2, p3⟩
    · obtain ⟨l, hl, p1, p2, p3⟩ := ih h
      exact ⟨l, by simp [hl], p1, p2, p3⟩

theorem extractRiskFactors_mem {f : String} {resp : String}
    (h : f ∈ extractRiskFactors resp) :
    f.length > 10 ∧ ∃ l ∈ splitListOn '\n' resp.data,
      isBulletL (stripChars l) = true ∧ f.data = cleanBullet (stripChars l) := by
  unfold extractRiskFactors at h
  have h2 := List.take_subset 4 _ h
  obtain ⟨cs, hcs, rfl⟩ := List.mem_map.mp h2
  obtain ⟨l, hl, p1, p2, p3⟩ := extractLoop_mem hcs
  exact ⟨p3, l, hl, p1, by rw [p2]⟩

/-! ### Field lemmas for `calcRisk` on a non-empty signal list -/

theorem calcRisk_empty (m : String) (meta : Option Metadata) (aug : AugOutcome) :
    calcRisk m [] meta aug = lowRiskResponse m := rfl

theorem calcRisk_breakdown (m : String) (signals : List Signal)
    (meta : Option Metadata) (aug : AugOutcome) (h : signals ≠ []) :
    (calcRisk m signals meta aug).signal_breakdown
      = detectorContribs m signals ++ geminiPart aug := by
  cases signals with
  | nil => exact absurd rfl h
  | cons a l => rfl

theorem calcRisk_explanation (m : String) (signals : List Signal)
    (meta : Option Metadata) (aug : AugOutcome) (h : signals ≠ []) :
    (calcRisk m signals meta aug).explanation
      = genExplanation m (detectorContribs m signals) (preAugScore m signals) := by
  cases signals with
  | nil => exact absurd rfl h
  | cons a l => rfl

theorem calcRisk_recommendation (m : String) (signals : List Signal)
    (meta : Option Metadata) (aug : AugOutcome) (h : signals ≠ []) :
    (calcRisk m signals meta aug).recommendation
      = genRecommendation (preAugLevel m signals) m := by
  cases signals with
  | nil => exact absurd rfl h
  | cons a l => rfl

theorem calcRisk_risk_score (m : String) (signals : List Signal)
    (meta : Option Metadata) (aug : AugOutcome) (h : signals ≠ []) :
    (calcRisk m signals meta aug).risk_score
      = min 100 (pythonRound (baseTotal m signals
          + (105/10 : ℚ) * geminiCount aug)) := by
  cases signals with
  | nil => exact absurd rfl h
  | cons a l =>
    cases aug with
    | unavailable => simp [calcRisk, geminiPart, geminiCount]
    | failed => simp [calcRisk, geminiPart, geminiCount]
    | noResponse => simp [calcRisk, geminiPart, geminiCount]
    | ok s =>
      by_cases hg : geminiSignals s = []
      · have hc : ((extractRiskFactors s).take 3).length = 0 := by
          rw [← geminiSignals_length, hg]
          rfl
        simp [calcRisk, geminiPart, geminiCount, hg, hc]
      · simp [calcRisk, geminiPart, geminiCount, hg, geminiSignals_sum]

theorem calcRisk_risk_level (m : String) (signals : List Signal)
    (meta : Option Metadata) (aug : AugOutcome) :
    (calcRisk m signals meta aug).risk_level
      = determineRiskLevel (calcRisk m signals meta aug).risk_score := by
  cases signals with
  | nil => rfl
  | cons a l =>
    cases aug with
    | unavailable => rfl
    | failed => rfl
    | noResponse => rfl
    | ok s =>
      by_cases hg : geminiSignals s = []
      · simp [calcRisk, geminiPart, hg]
      · simp [calcRisk, geminiPart, hg]

theorem calcRisk_gemini_verified (m : String) (signals : List Signal)
    (meta : Option Metadata) (aug : AugOutcome) (h : signals ≠ []) :
    (calcRisk m signals meta aug).gemini_verified = (augAnalysis aug).isSome := by
  cases signals with
  | nil => exact absurd rfl h
  | cons a l => rfl

/-! ### The stable descending sort used by `_generate_explanation` -/

theorem insertDesc_perm (x : Contribution) (l : List Contribution) :
    (insertDesc x l).Perm (x :: l) := by
  induction l with
  | nil => exact List.Perm.refl _
  | cons y ys ih =>
    rw [insertDesc]
    split_ifs with hxy
    · exact (List.Perm.cons y ih).trans (List.Perm.swap x y ys)
    · exact List.Perm.refl _

theorem pySortDesc_perm (l : List Contribution) : (pySortDesc l).Perm l := by
  induction l with
  | nil => exact List.Perm.refl _
  | cons x xs ih =>
    rw [pySortDesc]
    exact (insertDesc_perm x (pySortDesc xs)).trans (List.Perm.cons x ih)

theorem chain'_insertDesc (x : Contribution) (l : List Contribution)
    (h : List.Chain' (fun a b => b.contribution ≤ a.contribution) l) :
    List.Chain' (fun a b => b.contribution ≤ a.contribution) (insertDesc x l) := by
  induction l with
  | nil => simp [insertDesc]
  | cons y ys ih =>
    rw [List.chain'_cons'] at h
    rw [insertDesc]
    split_ifs with hxy
    · rw [List.chain'_cons']
      refine ⟨?_, ih h.2⟩
      intro b hb
      cases ys with
      | nil =>
        simp [insertDesc] at hb
        subst hb
        exact le_of_lt hxy
      | cons z zs =>
        rw [insertDesc] at hb
        split_ifs at hb with hxz
        · simp at hb
          subst hb
          exact h.1 z (by simp)
        · simp at hb
          subst hb
          exact le_of_lt hxy
    · rw [List.chain'_cons']
      refine ⟨fun b hb => ?_, List.chain'_cons'.mpr h⟩
      simp at hb
      subst hb
      exact not_lt.mp hxy

theorem pySortDesc_sorted (l : List Contribution) :
    List.Chain' (fun a b => b.contribution ≤ a.contribution) (pySortDesc l) := by
  induction l with
  | nil => simp [pySortDesc]
  | cons x xs ih => exact chain'_insertDesc x (pySortDesc xs) ih

theorem filter_insertDesc (x : Contribution) (l : List Contribution) (q : ℚ) :
    (insertDesc x l).filter (fun c => decide (c.contribution = q))
      = if x.contribution = q then
          x :: l.filter (fun c => decide (c.contribution = q))
        else l.filter (fun c => decide (c.contribution = q)) := by
  induction l with
  | nil =>
    rw [insertDesc]
    split_ifs with hx <;> simp [List.filter, hx]
  | cons y ys ih =>
    rw [insertDesc]
    by_cases hxy : x.contribution < y.contribution
    · rw [if_pos hxy]
      by_cases hy : y.contribution = q
      · have hxq : x.contribution ≠ q := by
          intro hc
          rw [hc, hy] at hxy
          exact lt_irrefl q hxy
        simp [List.filter_cons, ih, hy, hxq]
      · simp [List.filter_cons, ih, hy]
    · rw [if_neg hxy]
      by_cases hx : x.contribution = q
      · simp [List.filter_cons, hx]
      · simp [List.filter_cons, hx]

theorem pySortDesc_filter (l : List Contribution) (q : ℚ) :
    (pySortDesc l).filter (fun c => decide (c.contribution = q))
      = l.filter (fun c => decide (c.contribution = q)) := by
  induction l with
  | nil => rfl
  | cons x xs ih =>
    rw [pySortDesc, filter_insertDesc]
    by_cases hx : x.contribution = q
    · simp [List.filter_cons, hx, ih]
    · simp [List.filter_cons, hx, ih]

/-! ### Weight table facts -/

theorem lookupWeight_pos_of_all_pos (ws : List (String × ℚ)) (t : String)
    (h : ∀ p ∈ ws, 0 < p.2) : 0 < lookupWeight ws t := by
  induction ws with
  | nil => norm_num [lookupWeight, List.lookup]
  | cons p ps ih =>
    rw [lookupWeight, List.lookup]
    rcases hbeq : t == p.1 with _ | _
    · exact ih fun x hx => h x (by simp [hx])
    · simpa using h p (by simp)

theorem lookup_mem {β : Type} {l : List (String × β)} {a : String} {b : β}
    (h : List.lookup a l = some b) : (a, b) ∈ l := by
  induction l with
  | nil => simp [List.lookup] at h
  | cons p ps ih =>
    obtain ⟨k, v⟩ := p
    rw [List.lookup] at h
    rcases hbeq : a == k with _ | _
    · rw [hbeq] at h
      exact List.mem_cons_of_mem _ (ih h)
    · rw [hbeq] at h
      obtain rfl : v = b := by simpa using h
      obtain rfl : a = k := eq_of_beq hbeq
      exact List.mem_cons_self _ _

theorem weightsFor_all_pos (m : String) : ∀ p ∈ weightsFor m, 0 < p.2 := by
  unfold weightsFor
  rcases hl : List.lookup m WEIGHTS with _ | ws
  · simp
  · have hmem : (m, ws) ∈ WEIGHTS := lookup_mem hl
    simp only [WEIGHTS, List.mem_cons, List.not_mem_nil, or_false,
      Prod.mk.injEq] at hmem
    rcases hmem with ⟨h1, rfl⟩ | ⟨h1, rfl⟩ | ⟨h1, rfl⟩ | ⟨h1, rfl⟩ <;>
      · intro p hp
        fin_cases hp <;> norm_num

theorem lookupWeight_pos (m t : String) : 0 < lookupWeight (weightsFor m) t :=
  lookupWeight_pos_of_all_pos _ t (weightsFor_all_pos m)

theorem lookupWeight_default (ws : List (String × ℚ)) (t : String)
    (h : List.lookup t ws = none) : lookupWeight ws t = 1/10 := by
  rw [lookupWeight, h]
  rfl

theorem weightsFor_unknown (m : String) (h1 : m ≠ "image") (h2 : m ≠ "video")
    (h3 : m ≠ "audio") (h4 : m ≠ "text") : weightsFor m = [] := by
  rw [weightsFor, WEIGHTS]
  simp [List.lookup, beq_eq_false_iff_ne.mpr h1, beq_eq_false_iff_ne.mpr h2,
    beq_eq_false_iff_ne.mpr h3, beq_eq_false_iff_ne.mpr h4]

/-! ### Congruence and append lemmas for the base total -/

theorem baseTotal_append_singleton (m : String) (signals : List Signal)
    (s : Signal) :
    baseTotal m (signals ++ [s])
      = baseTotal m signals + rawContribution (weightsFor m) s := by
  simp [baseTotal]

theorem rawContribution_congr (ws : List (String × ℚ)) {a b : Signal}
    (ht : a.type = b.type) (hc : a.confidence = b.confidence) :
    rawContribution ws a = rawContribution ws b := by
  rw [rawContribution, rawContribution, ht, hc]

theorem baseTotal_congr (m : String) {s1 s2 : List Signal}
    (h : List.Forall₂ (fun a b => a.type = b.type ∧ a.confidence = b.confidence)
          s1 s2) :
    baseTotal m s1 = baseTotal m s2 := by
  induction h with
  | nil => rfl
  | cons hab _ ih =>
    simp only [baseTotal, List.map_cons, List.sum_cons] at ih ⊢
    rw [rawContribution_congr (weightsFor m) hab.1 hab.2, ih]

/-! ### Claims -/

/-- C2: for an empty signal list, `calculate_risk` returns the canonical
zero-risk assessment of `_generate_low_risk_response` — `risk_score = 0`,
`risk_level = "Low"`, empty `signal_breakdown`, the fixed "no signals"
explanation and the fixed low-priority recommendation — and the result does
not depend on the augmentation outcome or metadata at all (the Augmentation
Client plays no role on this path). -/
theorem c2_empty_signals (m : String) (meta meta' : Option Metadata)
    (aug aug' : AugOutcome) :
    calcRisk m [] meta aug = lowRiskResponse m ∧
    calcRisk m [] meta aug = calcRisk m [] meta' aug' ∧
    (calcRisk m [] meta aug).risk_score = 0 ∧
    (calcRisk m [] meta aug).risk_level = "Low" ∧
    (calcRisk m [] meta aug).signal_breakdown = [] ∧
    (calcRisk m [] meta aug).explanation
      = "No significant deception risk signals detected in this " ++ m
          ++ ". However, absence of detected signals does not guarantee authenticity." ∧
    (calcRisk m [] meta aug).recommendation
      = { action := "Proceed with Standard Verification"
          priority := "Low"
          suggested_steps :=
            ["No automated risk indicators found",
             "Apply standard content verification practices",
             "Note: Advanced manipulations may evade detection"]
          human_review_required := false } :=
  ⟨rfl, rfl, rfl, rfl, rfl, rfl, rfl⟩

/-- C3: `risk_level` is a deterministic function of `risk_score` with the
fixed thresholds 30 and 60 (`Low` below 30, `Medium` in `[30, 60)`, `High`
from 60 on); the boundary values 29/30/59/60 map to Low/Medium/Medium/High,
and the `risk_level` of every assessment produced by `calculate_risk` equals
`_determine_risk_level` of its `risk_score`. -/
theorem c3_risk_level_thresholds :
    (∀ score : ℤ, determineRiskLevel score
        = if score < 30 then "Low" else if score < 60 then "Medium" else "High") ∧
    determineRiskLevel 29 = "Low" ∧
    determineRiskLevel 30 = "Medium" ∧
    determineRiskLevel 59 = "Medium" ∧
    determineRiskLevel 60 = "High" ∧
    ∀ (m : String) (signals : List Signal) (meta : Option Metadata)
      (aug : AugOutcome),
      (calcRisk m signals meta aug).risk_level
        = determineRiskLevel (calcRisk m signals meta aug).risk_score := by
  refine ⟨?_, by decide, by decide, by decide, by decide, calcRisk_risk_level⟩
  intro score
  have h1 : (List.lookup "low" THRESHOLDS).getD 0 = 30 := rfl
  have h2 : (List.lookup "medium" THRESHOLDS).getD 0 = 60 := rfl
  rw [determineRiskLevel, h1, h2]

/-- Sample signal with confidence 0.0252; under an unknown modality its weight
is 0.1, so its unrounded contribution is 0.252 while the stored (2-decimal)
contribution is 0.25. -/
def driftSignal : Signal :=
  { type := "t", confidence := 63/2500, description := "d", evidence := [] }

/-- C1 (counterexample): with two signals of unrounded contribution 0.252
each, the returned `risk_score` is `round(0.504) = 1`, but recomputing
`min(100, round(sum))` from the `contribution` values stored in
`signal_breakdown` (which are rounded to 2 decimals, 0.25 each) yields
`round(0.5) = 0 ≠ 1`; the stored breakdown does not reproduce `risk_score`
exactly. -/
theorem c1_counterexample :
    (calcRisk "m" [driftSignal, driftSignal] none
        AugOutcome.unavailable).risk_score = 1 ∧
    min 100 (pythonRound
        (((calcRisk "m" [driftSignal, driftSignal] none
            AugOutcome.unavailable).signal_breakdown.map
          Contribution.contribution).sum)) = 0 := by
  have hwm : weightsFor "m" = [] := rfl
  have hraw : rawContribution (weightsFor "m") driftSignal = 63/250 := by
    norm_num [rawContribution, hwm, lookupWeight, List.lookup, driftSignal]
  have hbt : baseTotal "m" [driftSignal, driftSignal] = 63/125 := by
    norm_num [baseTotal, hraw]
  constructor
  · rw [calcRisk_risk_score "m" [driftSignal, driftSignal] none
      AugOutcome.unavailable (by simp), hbt]
    have hf : ⌊(63/125 + 105/10 * (geminiCount AugOutcome.unavailable : ℚ) : ℚ)⌋ = 0 := by
      rw [Int.floor_eq_iff]
      norm_num [geminiCount]
    rw [pythonRound_eq_high hf (by norm_num [geminiCount])]
    norm_num
  · have hr2 : round2 (63/250 : ℚ) = 1/4 := by
      have hf : ⌊(63/250 : ℚ) * 100⌋ = 25 := by
        rw [Int.floor_eq_iff]
        norm_num
      rw [round2, pythonRound_eq_low hf (by norm_num)]
      norm_num
    have hbk : (((calcRisk "m" [driftSignal, driftSignal] none
        AugOutcome.unavailable).signal_breakdown.map
          Contribution.contribution).sum) = 1/2 := by
      rw [calcRisk_breakdown "m" [driftSignal, driftSignal] none
        AugOutcome.unavailable (by simp)]
      simp [detectorContribs, mkContribution, geminiPart, hraw, hr2]
      norm_num
    rw [hbk]
    have hf : ⌊(1/2 : ℚ)⌋ = 0 := by
      rw [Int.floor_eq_iff]
      norm_num
    rw [pythonRound_eq_half_even hf (by norm_num) (by norm_num)]
    norm_num

/-- C1 (amended): for every non-empty signal list, `risk_score` equals
`min(100, round(S))`, where `S` is the unrounded sum of
`confidence * weight * 100` over the detector signals plus 10.5 per accepted
augmentation factor. Recomputing from the unrounded contributions reproduces
`risk_score`; the `contribution` values stored in `signal_breakdown` are
rounded to 2 decimals, so recomputing from the stored breakdown does not in
general reproduce `risk_score` (see the counterexample). -/
theorem c1_amended_score_formula (m : String) (signals : List Signal)
    (meta : Option Metadata) (aug : AugOutcome) (h : signals ≠ []) :
    (calcRisk m signals meta aug).risk_score
      = min 100 (pythonRound (baseTotal m signals
          + (105/10 : ℚ) * geminiCount aug)) ∧
    baseTotal m signals
      = (signals.map
          (fun s => s.confidence * lookupWeight (weightsFor m) s.type * 100)).sum :=
  ⟨calcRisk_risk_score m signals meta aug h, by
    rw [baseTotal]
    congr 1⟩

/-- C1 (witness): the amended score formula instantiated at a concrete
one-signal call. -/
theorem c1_witness :
    (([driftSignal] : List Signal) ≠ []) ∧
    ((calcRisk "image" [driftSignal] none AugOutcome.unavailable).risk_score
      = min 100 (pythonRound (baseTotal "image" [driftSignal]
          + (105/10 : ℚ) * geminiCount AugOutcome.unavailable)) ∧
     baseTotal "image" [driftSignal]
      = ([driftSignal].map
          (fun s => s.confidence * lookupWeight (weightsFor "image") s.type * 100)).sum) :=
  ⟨by simp,
   c1_amended_score_formula "image" [driftSignal] none AugOutcome.unavailable
     (by simp)⟩

/-- C4: all weights in the table (and the 0.1 default) are positive, and
appending one signal with positive confidence to any signal list never
decreases the `risk_score` returned by `calculate_risk`, the augmentation
outcome held fixed. -/
theorem c4_append_signal_monotone (m : String) (signals : List Signal)
    (meta : Option Metadata) (aug : AugOutcome) (s : Signal)
    (h : 0 < s.confidence) :
    0 < lookupWeight (weightsFor m) s.type ∧
    (calcRisk m signals meta aug).risk_score
      ≤ (calcRisk m (signals ++ [s]) meta aug).risk_score := by
  refine ⟨lookupWeight_pos m s.type, ?_⟩
  have hraw : 0 < rawContribution (weightsFor m) s := by
    rw [rawContribution]
    exact mul_pos (mul_pos h (lookupWeight_pos m s.type)) (by norm_num)
  cases signals with
  | nil =>
    have hL : (calcRisk m [] meta aug).risk_score = 0 := rfl
    rw [hL, calcRisk_risk_score m ([] ++ [s]) meta aug (by simp)]
    have hbt : baseTotal m ([] ++ [s]) = rawContribution (weightsFor m) s := by
      simp [baseTotal]
    have hnn : (0:ℚ) ≤ baseTotal m ([] ++ [s]) + 105/10 * geminiCount aug := by
      have hc : (0:ℚ) ≤ (geminiCount aug : ℚ) := Nat.cast_nonneg _
      rw [hbt]
      linarith
    exact le_min (by norm_num) (pythonRound_nonneg hnn)
  | cons a l =>
    rw [calcRisk_risk_score m (a :: l) meta aug (by simp),
      calcRisk_risk_score m ((a :: l) ++ [s]) meta aug (by simp),
      baseTotal_append_singleton]
    exact min_le_min (le_refl 100) (pythonRound_mono (by linarith))

/-- C4 (witness): appending a concrete positive-confidence signal to a
concrete one-signal list does not decrease the score. -/
theorem c4_witness :
    (0 < driftSignal.confidence) ∧
    (0 < lookupWeight (weightsFor "image") driftSignal.type ∧
     (calcRisk "image" [driftSignal] none AugOutcome.unavailable).risk_score
       ≤ (calcRisk "image" ([driftSignal] ++ [driftSignal]) none
            AugOutcome.unavailable).risk_score) :=
  ⟨by norm_num [driftSignal],
   c4_append_signal_monotone "image" [driftSignal] none AugOutcome.unavailable
     driftSignal (by norm_num [driftSignal])⟩

/-- C5: for a non-empty signal list, every augmentation failure mode —
`is_available()` false (`unavailable`), an exception from the awaited call
(`failed`), or `analyze_media_risk` returning `None` after a timeout or
malformed reply (`noResponse`) — yields exactly the pre-augmentation
assessment: same score, level, breakdown, explanation and recommendation,
with `gemini_verified = False` and no stored analysis; augmentation failure
is never fatal (the model is total on these outcomes). -/
theorem c5_augmentation_failure (m : String) (signals : List Signal)
    (meta : Option Metadata) (h : signals ≠ []) :
    calcRisk m signals meta AugOutcome.unavailable
      = calcRisk m signals meta AugOutcome.failed ∧
    calcRisk m signals meta AugOutcome.unavailable
      = calcRisk m signals meta AugOutcome.noResponse ∧
    (calcRisk m signals meta AugOutcome.unavailable).risk_score
      = preAugScore m signals ∧
    (calcRisk m signals meta AugOutcome.unavailable).risk_level
      = preAugLevel m signals ∧
    (calcRisk m signals meta AugOutcome.unavailable).signal_breakdown
      = detectorContribs m signals ∧
    (calcRisk m signals meta AugOutcome.unavailable).explanation
      = genExplanation m (detectorContribs m signals) (preAugScore m signals) ∧
    (calcRisk m signals meta AugOutcome.unavailable).recommendation
      = genRecommendation (preAugLevel m signals) m ∧
    (calcRisk m signals meta AugOutcome.unavailable).gemini_verified = false ∧
    (calcRisk m signals meta AugOutcome.unavailable).gemini_analysis = none := by
  cases signals with
  | nil => exact absurd rfl h
  | cons a l =>
    refine ⟨rfl, rfl, rfl, rfl, ?_, rfl, rfl, rfl, rfl⟩
    show detectorContribs m (a :: l) ++ [] = detectorContribs m (a :: l)
    exact List.append_nil _

/-- C5 (witness): the failure-mode equalities instantiated at a concrete
one-signal call. -/
theorem c5_witness :
    (([driftSignal] : List Signal) ≠ []) ∧
    (calcRisk "image" [driftSignal] none AugOutcome.unavailable
      = calcRisk "image" [driftSignal] none AugOutcome.failed ∧
    calcRisk "image" [driftSignal] none AugOutcome.unavailable
      = calcRisk "image" [driftSignal] none AugOutcome.noResponse ∧
    (calcRisk "image" [driftSignal] none AugOutcome.unavailable).risk_score
      = preAugScore "image" [driftSignal] ∧
    (calcRisk "image" [driftSignal] none AugOutcome.unavailable).risk_level
      = preAugLevel "image" [driftSignal] ∧
    (calcRisk "image" [driftSignal] none
        AugOutcome.unavailable).signal_breakdown
      = detectorContribs "image" [driftSignal] ∧
    (calcRisk "image" [driftSignal] none AugOutcome.unavailable).explanation
      = genExplanation "image" (detectorContribs "image" [driftSignal])
          (preAugScore "image" [driftSignal]) ∧
    (calcRisk "image" [driftSignal] none
        AugOutcome.unavailable).recommendation
      = genRecommendation (preAugLevel "image" [driftSignal]) "image" ∧
    (calcRisk "image" [driftSignal] none
        AugOutcome.unavailable).gemini_verified = false ∧
    (calcRisk "image" [driftSignal] none AugOutcome.unavailable).gemini_analysis
      = none) :=
  ⟨by simp,
   c5_augmentation_failure "image" [driftSignal] none (by simp)⟩

/-- C6: when augmentation succeeds with analysis text `a`, the synthetic
contributions are appended after all detector-sourced contributions; at most
3 factors are accepted; the `i`-th synthetic contribution has exactly
confidence 0.70, weight 0.15, contribution 10.5, the fixed signal tag, and
evidence naming its origin and the 1-based ordinal `i + 1`; and its
description is a factor parsed from a numbered/bulleted line of the analysis,
trimmed and cleaned, with cleaned length strictly greater than 10. -/
theorem c6_gemini_factors (m : String) (signals : List Signal)
    (meta : Option Metadata) (a : String) (i : ℕ)
    (h : signals ≠ []) (hi : i < (geminiSignals a).length) :
    (calcRisk m signals meta (AugOutcome.ok a)).signal_breakdown
      = detectorContribs m signals ++ geminiSignals a ∧
    (geminiSignals a).length ≤ 3 ∧
    ((geminiSignals a).get ⟨i, hi⟩).signal = "ai_verified_risk_factor" ∧
    ((geminiSignals a).get ⟨i, hi⟩).confidence = 70/100 ∧
    ((geminiSignals a).get ⟨i, hi⟩).weight = 15/100 ∧
    ((geminiSignals a).get ⟨i, hi⟩).contribution = 105/10 ∧
    ((geminiSignals a).get ⟨i, hi⟩).evidence
      = [("source", EvValue.str "Gemini AI"),
         ("factor_id", EvValue.int ((i : ℤ) + 1))] ∧
    ((geminiSignals a).get ⟨i, hi⟩).description.length > 10 ∧
    ∃ l ∈ splitListOn '\n' a.data, isBulletL (stripChars l) = true ∧
      ((geminiSignals a).get ⟨i, hi⟩).description.data
        = cleanBullet (stripChars l) := by
  have hlen : (geminiSignals a).length = ((extractRiskFactors a).take 3).length :=
    geminiSignals_length a
  have hi3 : i < ((extractRiskFactors a).take 3).length := hlen ▸ hi
  have hget : (geminiSignals a).get ⟨i, hi⟩
      = mkGeminiContribution (0 + i)
          (((extractRiskFactors a).take 3).get ⟨i, hi3⟩) :=
    geminiSignalsAux_get _ 0 i hi
  have hmem : ((extractRiskFactors a).take 3).get ⟨i, hi3⟩
      ∈ extractRiskFactors a :=
    List.take_subset 3 _ (List.get_mem _ _ _)
  obtain ⟨hlen10, l, hl, hbul, hdata⟩ := extractRiskFactors_mem hmem
  refine ⟨?_, ?_, ?_, ?_, ?_, ?_, ?_, ?_, ⟨l, hl, hbul, ?_⟩⟩
  · rw [calcRisk_breakdown m signals meta (AugOutcome.ok a) h]
    rfl
  · rw [hlen, List.length_take]
    exact min_le_left _ _
  · rw [hget]
    rfl
  · rw [hget]
    rfl
  · rw [hget]
    rfl
  · rw [hget]
    rfl
  · rw [hget]
    simp [mkGeminiContribution]
  · rw [hget]
    exact hlen10
  · rw [hget]
    exact hdata

/-- Concrete Gemini analysis text used by the C6 witness: one non-bullet
line, two numbered factors, one dashed factor and one starred factor. -/
def sampleAnalysis : String :=
  "Risk summary:\n1. First contextual risk factor\n2. Second contextual risk factor\n- Third contextual risk factor\n* Fourth contextual risk factor"

/-- C6 (witness): the synthetic-contribution facts instantiated at a concrete
successful analysis, first factor. -/
theorem c6_witness :
    (([driftSignal] : List Signal) ≠ []) ∧
    (0 < (geminiSignals sampleAnalysis).length) ∧
    ((calcRisk "image" [driftSignal] none
        (AugOutcome.ok sampleAnalysis)).signal_breakdown
      = detectorContribs "image" [driftSignal] ++ geminiSignals sampleAnalysis ∧
    (geminiSignals sampleAnalysis).length ≤ 3 ∧
    ((geminiSignals sampleAnalysis).get
        ⟨0, by decide⟩).signal = "ai_verified_risk_factor" ∧
    ((geminiSignals sampleAnalysis).get ⟨0, by decide⟩).confidence = 70/100 ∧
    ((geminiSignals sampleAnalysis).get ⟨0, by decide⟩).weight = 15/100 ∧
    ((geminiSignals sampleAnalysis).get ⟨0, by decide⟩).contribution = 105/10 ∧
    ((geminiSignals sampleAnalysis).get ⟨0, by decide⟩).evidence
      = [("source", EvValue.str "Gemini AI"),
         ("factor_id", EvValue.int ((0 : ℤ) + 1))] ∧
    ((geminiSignals sampleAnalysis).get ⟨0, by decide⟩).description.length > 10 ∧
    ∃ l ∈ splitListOn '\n' sampleAnalysis.data,
      isBulletL (stripChars l) = true ∧
      ((geminiSignals sampleAnalysis).get ⟨0, by decide⟩).description.data
        = cleanBullet (stripChars l)) :=
  ⟨by simp, by decide,
   c6_gemini_factors "image" [driftSignal] none sampleAnalysis 0 (by simp)
     (by decide)⟩

/-- Sample signal of an unknown type with full confidence; its contribution
is 10 under every modality. -/
def boostSignal : Signal :=
  { type := "zzz", confidence := 1, description := "x", evidence := [] }

/-- C7 (counterexample): the recommendation is not a function of `risk_level`
alone. Two calls with identical Medium `risk_level` but different modalities
return different recommendations (the Medium tier interpolates the modality
into its steps), and the empty-signals path returns a different Low
recommendation than a non-empty Low-risk call. -/
theorem c7_counterexample :
    (calcRisk "image" [boostSignal, boostSignal, boostSignal, boostSignal]
        none AugOutcome.unavailable).risk_level
      = (calcRisk "video" [boostSignal, boostSignal, boostSignal, boostSignal]
          none AugOutcome.unavailable).risk_level ∧
    (calcRisk "image" [boostSignal, boostSignal, boostSignal, boostSignal]
        none AugOutcome.unavailable).recommendation
      ≠ (calcRisk "video" [boostSignal, boostSignal, boostSignal, boostSignal]
          none AugOutcome.unavailable).recommendation ∧
    (calcRisk "image" [] none AugOutcome.unavailable).risk_level
      = (calcRisk "image" [driftSignal] none AugOutcome.unavailable).risk_level ∧
    (calcRisk "image" [] none AugOutcome.unavailable).recommendation
      ≠ (calcRisk "image" [driftSignal] none AugOutcome.unavailable).recommendation := by
  have hf40 : ⌊(40 : ℚ)⌋ = 40 := by
    rw [Int.floor_eq_iff]
    norm_num
  have hri : rawContribution (weightsFor "image") boostSignal = 10 := by
    have hw : lookupWeight (weightsFor "image") "zzz" = 1/10 := rfl
    norm_num [rawContribution, boostSignal, hw]
  have hrv : rawContribution (weightsFor "video") boostSignal = 10 := by
    have hw : lookupWeight (weightsFor "video") "zzz" = 1/10 := rfl
    norm_num [rawContribution, boostSignal, hw]
  have hbi : baseTotal "image"
      [boostSignal, boostSignal, boostSignal, boostSignal] = 40 := by
    norm_num [baseTotal, hri]
  have hbv : baseTotal "video"
      [boostSignal, boostSignal, boostSignal, boostSignal] = 40 := by
    norm_num [baseTotal, hrv]
  have hpi : preAugScore "image"
      [boostSignal, boostSignal, boostSignal, boostSignal] = 40 := by
    rw [preAugScore, hbi, pythonRound_eq_low hf40 (by norm_num)]
    norm_num
  have hpv : preAugScore "video"
      [boostSignal, boostSignal, boostSignal, boostSignal] = 40 := by
    rw [preAugScore, hbv, pythonRound_eq_low hf40 (by norm_num)]
    norm_num
  have hli : preAugLevel "image"
      [boostSignal, boostSignal, boostSignal, boostSignal] = "Medium" := by
    rw [preAugLevel, hpi]
    decide
  have hlv : preAugLevel "video"
      [boostSignal, boostSignal, boostSignal, boostSignal] = "Medium" := by
    rw [preAugLevel, hpv]
    decide
  have hd : rawContribution (weightsFor "image") driftSignal = 63/250 := by
    have hw : lookupWeight (weightsFor "image") "t" = 1/10 := rfl
    norm_num [rawContribution, driftSignal, hw]
  have hbd : baseTotal "image" [driftSignal] = 63/250 := by
    norm_num [baseTotal, hd]
  have hpd : preAugScore "image" [driftSignal] = 0 := by
    have hf : ⌊(63/250 : ℚ)⌋ = 0 := by
      rw [Int.floor_eq_iff]
      norm_num
    rw [preAugScore, hbd, pythonRound_eq_low hf (by norm_num)]
    norm_num
  have hld : preAugLevel "image" [driftSignal] = "Low" := by
    rw [preAugLevel, hpd]
    decide
  refine ⟨?_, ?_, ?_, ?_⟩
  · show preAugLevel "image" [boostSignal, boostSignal, boostSignal, boostSignal]
      = preAugLevel "video" [boostSignal, boostSignal, boostSignal, boostSignal]
    rw [hli, hlv]
  · show genRecommendation (preAugLevel "image"
        [boostSignal, boostSignal, boostSignal, boostSignal]) "image"
      ≠ genRecommendation (preAugLevel "video"
          [boostSignal, boostSignal, boostSignal, boostSignal]) "video"
    rw [hli, hlv]
    decide
  · show "Low" = preAugLevel "image" [driftSignal]
    rw [hld]
  · show (lowRiskResponse "image").recommendation
      ≠ genRecommendation (preAugLevel "image" [driftSignal]) "image"
    rw [hld]
    decide

/-- C7 (amended): the recommendation of a non-empty call is the static record
for the pre-augmentation risk level and the modality (the Medium tier's steps
mention the modality; the level is not re-looked-up after augmentation); the
Low and High rows are modality-invariant; and the empty-signals path returns
its own distinct fixed record, different from the non-empty Low row. -/
theorem c7_amended_recommendation (m m2 : String) (signals : List Signal)
    (meta : Option Metadata) (aug : AugOutcome) (h : signals ≠ []) :
    (calcRisk m signals meta aug).recommendation
      = genRecommendation (preAugLevel m signals) m ∧
    genRecommendation "Low" m = genRecommendation "Low" m2 ∧
    genRecommendation "High" m = genRecommendation "High" m2 ∧
    (calcRisk m [] meta aug).recommendation = (lowRiskResponse m).recommendation ∧
    (lowRiskResponse m).recommendation ≠ genRecommendation "Low" m := by
  refine ⟨calcRisk_recommendation m signals meta aug h, rfl, rfl, rfl, ?_⟩
  intro hEq
  have hact := congrArg Recommendation.action hEq
  simp [lowRiskResponse, genRecommendation] at hact

/-- C7 (witness): the amended recommendation facts instantiated at a concrete
call. -/
theorem c7_witness :
    (([driftSignal] : List Signal) ≠ []) ∧
    ((calcRisk "image" [driftSignal] none
        AugOutcome.unavailable).recommendation
      = genRecommendation (preAugLevel "image" [driftSignal]) "image" ∧
    genRecommendation "Low" "image" = genRecommendation "Low" "video" ∧
    genRecommendation "High" "image" = genRecommendation "High" "video" ∧
    (calcRisk "image" [] none AugOutcome.unavailable).recommendation
      = (lowRiskResponse "image").recommendation ∧
    (lowRiskResponse "image").recommendation
      ≠ genRecommendation "Low" "image") :=
  ⟨by simp,
   c7_amended_recommendation "image" "video" [driftSignal] none
     AugOutcome.unavailable (by simp)⟩

/-- C8: for a non-empty signal list the explanation is computed once, from
the detector-sourced contributions and the pre-augmentation score, and is not
recomputed for any augmentation outcome; there is one detector contribution
per signal; and the top-3 selection inside `_generate_explanation` uses a
sort that is a permutation, descending in `contribution`, and stable (for
every key value, the entries with that `contribution` appear in original
detection order). -/
theorem c8_explanation_top3 (m : String) (signals : List Signal)
    (meta : Option Metadata) (aug : AugOutcome) (q : ℚ) (h : signals ≠ []) :
    (calcRisk m signals meta aug).explanation
      = genExplanation m (detectorContribs m signals) (preAugScore m signals) ∧
    (detectorContribs m signals).length = signals.length ∧
    (pySortDesc (detectorContribs m signals)).Perm (detectorContribs m signals) ∧
    List.Chain' (fun a b => b.contribution ≤ a.contribution)
      (pySortDesc (detectorContribs m signals)) ∧
    (pySortDesc (detectorContribs m signals)).filter
        (fun c => decide (c.contribution = q))
      = (detectorContribs m signals).filter
          (fun c => decide (c.contribution = q)) :=
  ⟨calcRisk_explanation m signals meta aug h,
   by simp [detectorContribs],
   pySortDesc_perm _,
   pySortDesc_sorted _,
   pySortDesc_filter _ q⟩

/-- C8 (witness): the explanation facts instantiated at a concrete two-signal
call with a successful augmentation outcome. -/
theorem c8_witness :
    (([driftSignal, boostSignal] : List Signal) ≠ []) ∧
    ((calcRisk "image" [driftSignal, boostSignal] none
        (AugOutcome.ok sampleAnalysis)).explanation
      = genExplanation "image" (detectorContribs "image" [driftSignal, boostSignal])
          (preAugScore "image" [driftSignal, boostSignal]) ∧
    (detectorContribs "image" [driftSignal, boostSignal]).length
      = ([driftSignal, boostSignal] : List Signal).length ∧
    (pySortDesc (detectorContribs "image" [driftSignal, boostSignal])).Perm
      (detectorContribs "image" [driftSignal, boostSignal]) ∧
    List.Chain' (fun a b => b.contribution ≤ a.contribution)
      (pySortDesc (detectorContribs "image" [driftSignal, boostSignal])) ∧
    (pySortDesc (detectorContribs "image" [driftSignal, boostSignal])).filter
        (fun c => decide (c.contribution = 1/4))
      = (detectorContribs "image" [driftSignal, boostSignal]).filter
          (fun c => decide (c.contribution = 1/4))) :=
  ⟨by simp,
   c8_explanation_top3 "image" [driftSignal, boostSignal] none
     (AugOutcome.ok sampleAnalysis) (1/4) (by simp)⟩

/-- C9: `calculate_risk` is total on well-formed inputs (the model is a total
function); an unrecognized modality makes the weight table empty, so every
signal type falls back to the default weight 0.1 — the breakdown records
weight 0.1 and contribution `round2(confidence * 0.1 * 100)` for every
signal, and the score is computed from those default-weight contributions —
and a signal type absent from a weight table likewise gets weight 0.1. -/
theorem c9_default_weight_fallback (m t : String) (signals : List Signal)
    (meta : Option Metadata) (aug : AugOutcome) (ws : List (String × ℚ))
    (t2 : String) (h1 : m ≠ "image") (h2 : m ≠ "video") (h3 : m ≠ "audio")
    (h4 : m ≠ "text") (h5 : signals ≠ [])
    (h6 : List.lookup t2 ws = none) :
    weightsFor m = [] ∧
    lookupWeight (weightsFor m) t = 1/10 ∧
    lookupWeight ws t2 = 1/10 ∧
    (calcRisk m signals meta aug).signal_breakdown
      = signals.map (fun s =>
          { signal := s.type
            description := s.description
            confidence := round2 s.confidence
            weight := 1/10
            contribution := round2 (s.confidence * (1/10) * 100)
            evidence := s.evidence }) ++ geminiPart aug ∧
    (calcRisk m signals meta aug).risk_score
      = min 100 (pythonRound
          ((signals.map (fun s => s.confidence * (1/10) * 100)).sum
            + (105/10 : ℚ) * geminiCount aug)) := by
  have hw : weightsFor m = [] := weightsFor_unknown m h1 h2 h3 h4
  have hlw : ∀ t3, lookupWeight (weightsFor m) t3 = 1/10 := by
    intro t3
    rw [hw]
    rfl
  have hbt : baseTotal m signals
      = (signals.map (fun s => s.confidence * (1/10) * 100)).sum := by
    rw [baseTotal]
    congr 1
    apply List.map_congr_left
    intro s _
    rw [rawContribution, hlw]
  refine ⟨hw, hlw t, lookupWeight_default ws t2 h6, ?_, ?_⟩
  · rw [calcRisk_breakdown m signals meta aug h5]
    congr 1
    rw [detectorContribs]
    apply List.map_congr_left
    intro s _
    rw [mkContribution, rawContribution, hlw]
  · rw [calcRisk_risk_score m signals meta aug h5, hbt]

/-- C9 (witness): the default-weight facts instantiated at an unknown
modality and a concrete signal. -/
theorem c9_witness :
    (("pdf" : String) ≠ "image") ∧ (("pdf" : String) ≠ "video") ∧
    (("pdf" : String) ≠ "audio") ∧ (("pdf" : String) ≠ "text") ∧
    (([driftSignal] : List Signal) ≠ []) ∧
    (List.lookup "j" [("k", (2 : ℚ))] = none) ∧
    (weightsFor "pdf" = [] ∧
    lookupWeight (weightsFor "pdf") "x" = 1/10 ∧
    lookupWeight [("k", (2 : ℚ))] "j" = 1/10 ∧
    (calcRisk "pdf" [driftSignal] none AugOutcome.unavailable).signal_breakdown
      = ([driftSignal] : List Signal).map (fun s =>
          { signal := s.type
            description := s.description
            confidence := round2 s.confidence
            weight := 1/10
            contribution := round2 (s.confidence * (1/10) * 100)
            evidence := s.evidence }) ++ geminiPart AugOutcome.unavailable ∧
    (calcRisk "pdf" [driftSignal] none AugOutcome.unavailable).risk_score
      = min 100 (pythonRound
          ((([driftSignal] : List Signal).map
              (fun s => s.confidence * (1/10) * 100)).sum
            + (105/10 : ℚ) * geminiCount AugOutcome.unavailable))) :=
  ⟨by decide, by decide, by decide, by decide, by simp, by rfl,
   c9_default_weight_fallback "pdf" "x" [driftSignal] none
     AugOutcome.unavailable [("k", (2 : ℚ))] "j" (by decide) (by decide)
     (by decide) (by decide) (by simp) (by rfl)⟩

/-- C10: noninterference of presentation fields — two signal lists that agree
pairwise on `type` and `confidence` (but may differ in `description` and
`evidence`) produce the same `risk_score`, `risk_level` and `recommendation`,
the modality, metadata and augmentation outcome held fixed. -/
theorem c10_presentation_noninterference (m : String) (meta : Option Metadata)
    (aug : AugOutcome) (s1 s2 : List Signal)
    (h : List.Forall₂
          (fun a b => a.type = b.type ∧ a.confidence = b.confidence) s1 s2) :
    (calcRisk m s1 meta aug).risk_score = (calcRisk m s2 meta aug).risk_score ∧
    (calcRisk m s1 meta aug).risk_level = (calcRisk m s2 meta aug).risk_level ∧
    (calcRisk m s1 meta aug).recommendation
      = (calcRisk m s2 meta aug).recommendation := by
  cases h with
  | nil => exact ⟨rfl, rfl, rfl⟩
  | @cons a b l1 l2 hab htail =>
    have hne1 : (a :: l1) ≠ ([] : List Signal) := by simp
    have hne2 : (b :: l2) ≠ ([] : List Signal) := by simp
    have hbt : baseTotal m (a :: l1) = baseTotal m (b :: l2) :=
      baseTotal_congr m (List.Forall₂.cons hab htail)
    have hs : (calcRisk m (a :: l1) meta aug).risk_score
        = (calcRisk m (b :: l2) meta aug).risk_score := by
      rw [calcRisk_risk_score m _ meta aug hne1,
        calcRisk_risk_score m _ meta aug hne2, hbt]
    refine ⟨hs, ?_, ?_⟩
    · rw [calcRisk_risk_level, calcRisk_risk_level, hs]
    · rw [calcRisk_recommendation m _ meta aug hne1,
        calcRisk_recommendation m _ meta aug hne2, preAugLevel, preAugLevel,
        preAugScore, preAugScore, hbt]

/-- Variant of `driftSignal` with different presentation fields only. -/
def driftSignalAlt : Signal :=
  { type := "t", confidence := 63/2500, description := "other words",
    evidence := [("note", EvValue.str "extra")] }

/-- C10 (witness): noninterference instantiated at two concrete lists that
differ only in description and evidence. -/
theorem c10_witness :
    List.Forall₂ (fun a b => a.type = b.type ∧ a.confidence = b.confidence)
      [driftSignal] [driftSignalAlt] ∧
    ((calcRisk "image" [driftSignal] none AugOutcome.unavailable).risk_score
      = (calcRisk "image" [driftSignalAlt] none AugOutcome.unavailable).risk_score ∧
    (calcRisk "image" [driftSignal] none AugOutcome.unavailable).risk_level
      = (calcRisk "image" [driftSignalAlt] none AugOutcome.unavailable).risk_level ∧
    (calcRisk "image" [driftSignal] none AugOutcome.unavailable).recommendation
      = (calcRisk "image" [driftSignalAlt] none
          AugOutcome.unavailable).recommendation) :=
  ⟨List.Forall₂.cons ⟨rfl, rfl⟩ List.Forall₂.nil,
   c10_presentation_noninterference "image" none AugOutcome.unavailable
     [driftSignal] [driftSignalAlt]
     (List.Forall₂.cons ⟨rfl, rfl⟩ List.Forall₂.nil)⟩

end ISafe
